import Mathlib

/-!
Shallow embedding of `src/modules/messaging/index.js` (the `Messaging`
facade of the react-native-firebase messaging module) together with the
event-bus behaviour its constructor wires up.

Modelling conventions:
* JavaScript values are the inductive `JSValue`; `typeof`, truthiness and
  the `||` operator are embedded as `jsTypeof`, `jsTruthy` and `jsOr`.
* A method that can throw synchronously returns `Except String α`:
  `Except.error msg` is a synchronously thrown `Error(msg)`, `Except.ok`
  is a normal return.  Returned promises that may be rejected are a
  separate constructor, so "throws synchronously" and "returns a rejected
  promise" are distinguishable.
* Delegations to the native module are recorded as explicit call records
  (`NativeTokenCall`, `NativeTopicCall`, the `List JSValue` log of
  `sendMessage`): the `ok` value of a delegating method is exactly the
  native call made, whose asynchronous result the source returns
  unchanged.
* `RemoteMessage` (a separate file of the repository, not part of the
  sources given here) appears only through the constructor
  `JSValue.remoteMessage payload` (an instance wrapping its payload) and
  through an abstract serialisation `build : JSValue → Except String JSValue`
  over which theorems quantify.
-/

/-- A JavaScript runtime value, restricted to the shapes the messaging
facade inspects: `typeof` tags, an optional `next` member on objects, and
whether the value is a `RemoteMessage` instance wrapping a payload. -/
inductive JSValue where
  | undefined
  | null
  | boolean (b : Bool)
  | number (n : Int)
  | string (s : String)
  | function (id : Nat)
  | object (next : JSValue)
  | remoteMessage (payload : JSValue)
deriving DecidableEq

/-- The string "undefined" produced by JavaScript `typeof`. -/
def typeofUndefined : String := "undefined"

/-- The string "object" produced by JavaScript `typeof`. -/
def typeofObject : String := "object"

/-- The string "boolean" produced by JavaScript `typeof`. -/
def typeofBoolean : String := "boolean"

/-- The string "number" produced by JavaScript `typeof`. -/
def typeofNumber : String := "number"

/-- The string "string" produced by JavaScript `typeof`. -/
def typeofString : String := "string"

/-- The string "function" produced by JavaScript `typeof`. -/
def typeofFunction : String := "function"

/-- JavaScript `typeof` on the embedded values (`typeof null` is
"object", a `RemoteMessage` instance is an "object"). -/
def jsTypeof : JSValue → String
  | JSValue.undefined => typeofUndefined
  | JSValue.null => typeofObject
  | JSValue.boolean _ => typeofBoolean
  | JSValue.number _ => typeofNumber
  | JSValue.string _ => typeofString
  | JSValue.function _ => typeofFunction
  | JSValue.object _ => typeofObject
  | JSValue.remoteMessage _ => typeofObject

/-- JavaScript truthiness of the embedded values: `undefined`, `null`,
`false`, `0` and the empty string are falsy, everything else truthy. -/
def jsTruthy : JSValue → Bool
  | JSValue.undefined => false
  | JSValue.null => false
  | JSValue.boolean b => b
  | JSValue.number n => n != 0
  | JSValue.string s => s != ""
  | JSValue.function _ => true
  | JSValue.object _ => true
  | JSValue.remoteMessage _ => true

/-- JavaScript `a || b`: `b` when `a` is falsy, otherwise `a`. -/
def jsOr (a b : JSValue) : JSValue :=
  if jsTruthy a then a else b

/-- Member access `v.next`, defined where the source performs it (after an
`isObject` check); absent members read as `undefined`. -/
def jsNext : JSValue → JSValue
  | JSValue.object next => next
  | _ => JSValue.undefined

/-- Source `isUndefined` from `src/modules/messaging/index.js`:
`typeof value === 'undefined'`. -/
def isUndefined (value : JSValue) : Bool :=
  jsTypeof value == typeofUndefined

/-- Source `isString` from `src/modules/messaging/index.js`:
`typeof value === 'string'`. -/
def isString (value : JSValue) : Bool :=
  jsTypeof value == typeofString

/-- Modelled from the spec: `isFunction` of `utils/index.js` (imported by
the facade, file not among the given sources) — true exactly on callback
functions ("a plain callback"). -/
def isFunction (value : JSValue) : Bool :=
  jsTypeof value == typeofFunction

/-- Modelled from the spec: `isObject` of `utils/index.js` (imported by
the facade, file not among the given sources) — true exactly on (non-null,
hence truthy) object values ("an object with a `next` callback"). -/
def isObject (value : JSValue) : Bool :=
  jsTruthy value && jsTypeof value == typeofObject

/-- `remoteMessage instanceof RemoteMessage` on the embedded values. -/
def isRemoteMessage : JSValue → Bool
  | JSValue.remoteMessage _ => true
  | _ => false

/-- A single-quote character, used to spell the quoted names inside the
source's error message strings. -/
def quoteS : String := String.mk [Char.ofNat 39]

/-- A backtick character, used to spell the quoted member name inside the
source's `onMessage`/`onTokenRefresh` error messages. -/
def backtickS : String := String.mk [Char.ofNat 96]

/-- The module namespace constant `NAMESPACE = 'messaging'` of the source. -/
def NAMESPACE : String := "messaging"

/-- The source `app.options.messagingSenderId` field used as the
`senderId` default. -/
structure AppOptions where
  messagingSenderId : String
deriving DecidableEq

/-- The owning application object, as far as the facade reads it:
`this.app.name` and `this.app.options.messagingSenderId`. -/
structure App where
  name : String
  options : AppOptions
deriving DecidableEq

/-- The destructured `{ appName, senderId }` argument of `getToken` /
`deleteToken`; an absent member is `JSValue.undefined`. -/
structure TokenOptions where
  appName : JSValue
  senderId : JSValue
deriving DecidableEq

/-- The native `getToken` / `deleteToken` call: the two argument values
handed to the native module, whose asynchronous result the facade
returns unchanged. -/
structure NativeTokenCall where
  appName : JSValue
  senderId : JSValue
deriving DecidableEq

/-- Error message of `getToken` for a bad `appName`:
`firebase.messaging().getToken(*) 'projectId' expected a string.` -/
def getTokenAppNameError : String :=
  "firebase.messaging().getToken(*) " ++ quoteS ++ "projectId" ++ quoteS
    ++ " expected a string."

/-- Error message of `getToken` for a bad `senderId`. -/
def getTokenSenderIdError : String :=
  "firebase.messaging().getToken(*) " ++ quoteS ++ "senderId" ++ quoteS
    ++ " expected a string."

/-- Error message of `deleteToken` for a bad `appName`. -/
def deleteTokenAppNameError : String :=
  "firebase.messaging().deleteToken(*) " ++ quoteS ++ "projectId" ++ quoteS
    ++ " expected a string."

/-- Error message of `deleteToken` for a bad `senderId`. -/
def deleteTokenSenderIdError : String :=
  "firebase.messaging().deleteToken(*) " ++ quoteS ++ "senderId" ++ quoteS
    ++ " expected a string."

/-- `Messaging.getToken({ appName, senderId } = {})`: validates that each
provided option is a string, then delegates to the native `getToken` with
falsy-fallback defaults `appName || app.name` and
`senderId || app.options.messagingSenderId`.  `Except.error` is the
synchronous `throw new Error(...)`; `Except.ok` is the native call made. -/
def getToken (app : App) (opts : TokenOptions) : Except String NativeTokenCall :=
  if !isUndefined opts.appName && !isString opts.appName then
    Except.error getTokenAppNameError
  else if !isUndefined opts.senderId && !isString opts.senderId then
    Except.error getTokenSenderIdError
  else
    Except.ok
      { appName := jsOr opts.appName (JSValue.string app.name)
        senderId := jsOr opts.senderId (JSValue.string app.options.messagingSenderId) }

/-- `Messaging.deleteToken({ appName, senderId } = {})`: same validation
and defaulting as `getToken`, delegating to the native `deleteToken`. -/
def deleteToken (app : App) (opts : TokenOptions) : Except String NativeTokenCall :=
  if !isUndefined opts.appName && !isString opts.appName then
    Except.error deleteTokenAppNameError
  else if !isUndefined opts.senderId && !isString opts.senderId then
    Except.error deleteTokenSenderIdError
  else
    Except.ok
      { appName := jsOr opts.appName (JSValue.string app.name)
        senderId := jsOr opts.senderId (JSValue.string app.options.messagingSenderId) }

/-- The promise `sendMessage` returns: either a promise rejected with an
error message, or the native `sendMessage` call's own promise (of abstract
type `π`), returned unchanged. -/
inductive SendResult (π : Type) where
  | rejected (e : String)
  | native (p : π)
deriving DecidableEq

/-- The type-mismatch rejection message of `sendMessage`:
`Messaging:sendMessage expects a 'RemoteMessage' but got type ${typeof remoteMessage}`. -/
def sendMessageTypeError (v : JSValue) : String :=
  "Messaging:sendMessage expects a " ++ quoteS ++ "RemoteMessage" ++ quoteS
    ++ " but got type " ++ jsTypeof v

/-- `Messaging.sendMessage(remoteMessage)`.  `build` is the abstract
serialisation `remoteMessage.build()` (from `RemoteMessage.js`, not among
the given sources) applied to the wrapped payload; `nativeSend` is the
native module's `sendMessage`, which may itself throw synchronously
(`Except.error`) or return a promise of abstract type `π`.  The result
pairs the outcome — `Except.error` would be a synchronous throw out of
`sendMessage`, `Except.ok` a returned promise — with the log of native
`sendMessage` calls made. -/
def sendMessage {π : Type} (build : JSValue → Except String JSValue)
    (nativeSend : JSValue → Except String π) (v : JSValue) :
    Except String (SendResult π) × List JSValue :=
  match v with
  | JSValue.remoteMessage payload =>
    match build payload with
    | Except.error e => (Except.ok (SendResult.rejected e), [])
    | Except.ok built =>
      match nativeSend built with
      | Except.error e => (Except.ok (SendResult.rejected e), [built])
      | Except.ok p => (Except.ok (SendResult.native p), [built])
  | other => (Except.ok (SendResult.rejected (sendMessageTypeError other)), [])

/-- The native method name string "subscribeToTopic". -/
def subscribeToTopicName : String := "subscribeToTopic"

/-- The native method name string "unsubscribeFromTopic". -/
def unsubscribeFromTopicName : String := "unsubscribeFromTopic"

/-- A native topic call record: which native method was invoked and the
topic argument it received, whose asynchronous result the facade returns
unchanged. -/
structure NativeTopicCall where
  method : String
  topic : JSValue
deriving DecidableEq

/-- `Messaging.subscribeToTopic(topic)`: unvalidated one-line delegation
to the native `subscribeToTopic`. -/
def subscribeToTopic (topic : JSValue) : Except String NativeTopicCall :=
  Except.ok { method := subscribeToTopicName, topic := topic }

/-- `Messaging.unsubscribeFromTopic(topic)`: unvalidated one-line
delegation to the native `unsubscribeFromTopic`. -/
def unsubscribeFromTopic (topic : JSValue) : Except String NativeTopicCall :=
  Except.ok { method := unsubscribeFromTopicName, topic := topic }

/-- The internal native event name `messaging_message_received`. -/
def messagingMessageReceivedEvent : String := "messaging_message_received"

/-- The internal native event name `messaging_token_refreshed`. -/
def messagingTokenRefreshedEvent : String := "messaging_token_refreshed"

/-- The public event name `onMessage`. -/
def onMessageEvent : String := "onMessage"

/-- The public event name `onTokenRefresh`. -/
def onTokenRefreshEvent : String := "onTokenRefresh"

/-- A callback registered on the shared event emitter: either one of the
two fan-out closures the `Messaging` constructor installs, or a user
function value (registered by `onMessage` / `onTokenRefresh`). -/
inductive Listener where
  | fanoutMessage
  | fanoutToken
  | fn (f : JSValue)
deriving DecidableEq

/-- Modelled from the spec: the state of `SharedEventEmitter`
(`utils/events.js`, not among the given sources) — "a mapping from public
event name to an ordered set of callback handles"; kept as the ordered
list of (event name, callback) registrations. -/
structure Emitter where
  listeners : List (String × Listener)
deriving DecidableEq

/-- Modelled from the spec: `SharedEventEmitter.addListener(event, cb)`
appends one registration for `event`. -/
def addListener (st : Emitter) (event : String) (cb : Listener) : Emitter :=
  Emitter.mk (st.listeners ++ [(event, cb)])

/-- Modelled from the spec: `SharedEventEmitter.removeListener(event, cb)`
removes the (first) registration of `cb` under `event` — "each
registration returns a disposer that removes exactly that callback". -/
def removeListener (st : Emitter) (event : String) (cb : Listener) : Emitter :=
  Emitter.mk (st.listeners.erase (event, cb))

/-- The callbacks registered under `event`, in registration order. -/
def listenersFor (st : Emitter) (event : String) : List Listener :=
  (st.listeners.filter (fun p => p.1 == event)).map Prod.snd

/-- Modelled from the spec: `SharedEventEmitter.emit(event, v)` — "all
registered listeners for a channel receive every event posted to that
channel", in registration order.  Returns the list of (callback, argument)
calls the emitter performs. -/
def emit (st : Emitter) (event : String) (v : JSValue) : List (Listener × JSValue) :=
  (listenersFor st event).map (fun cb => (cb, v))

/-- Running one emitter callback on its argument, yielding the observable
(callback, argument) invocations it causes.  A user function is itself
invoked; the constructor's `messaging_message_received` closure performs
`SharedEventEmitter.emit('onMessage', new RemoteMessage(message))`; the
`messaging_token_refreshed` closure performs
`SharedEventEmitter.emit('onTokenRefresh', token)`. -/
def invoke (st : Emitter) (cb : Listener) (v : JSValue) : List (Listener × JSValue) :=
  match cb with
  | Listener.fn f => [(Listener.fn f, v)]
  | Listener.fanoutMessage => emit st onMessageEvent (JSValue.remoteMessage v)
  | Listener.fanoutToken => emit st onTokenRefreshEvent v

/-- An inbound native event: the native side emits `event` with payload
`v`; every callback the emitter calls then runs once. -/
def dispatchNativeEvent (st : Emitter) (event : String) (v : JSValue) :
    List (Listener × JSValue) :=
  (emit st event v).flatMap (fun q => invoke st q.1 q.2)

/-- The `Messaging` constructor's emitter wiring: it subscribes the
fan-out closures to the two internal native events. -/
def constructorInit (st : Emitter) : Emitter :=
  addListener (addListener st messagingMessageReceivedEvent Listener.fanoutMessage)
    messagingTokenRefreshedEvent Listener.fanoutToken

/-- Error message thrown by `onMessage` on an invalid argument. -/
def onMessageError : String :=
  "Messaging.onMessage failed: First argument must be a function or observer object with a "
    ++ backtickS ++ "next" ++ backtickS ++ " function."

/-- Error message thrown by `onTokenRefresh` on an invalid argument. -/
def onTokenRefreshError : String :=
  "Messaging.onTokenRefresh failed: First argument must be a function or observer object with a "
    ++ backtickS ++ "next" ++ backtickS ++ " function."

/-- `Messaging.onMessage(nextOrObserver)`: resolves the listener (the
argument itself when a function, its `next` member when an object with a
function `next`, otherwise a synchronous throw), registers it on the
public `onMessage` channel, and returns it (the disposer closes over it;
see `onMessageDisposer`).  `Except.ok (st, f)` is the new emitter state
and the registered listener. -/
def onMessage (st : Emitter) (nextOrObserver : JSValue) :
    Except String (Emitter × JSValue) :=
  if isFunction nextOrObserver then
    Except.ok (addListener st onMessageEvent (Listener.fn nextOrObserver), nextOrObserver)
  else if isObject nextOrObserver && isFunction (jsNext nextOrObserver) then
    Except.ok (addListener st onMessageEvent (Listener.fn (jsNext nextOrObserver)),
      jsNext nextOrObserver)
  else
    Except.error onMessageError

/-- The disposer returned by `onMessage` for registered listener `f`:
`SharedEventEmitter.removeListener('onMessage', listener)`. -/
def onMessageDisposer (st : Emitter) (f : JSValue) : Emitter :=
  removeListener st onMessageEvent (Listener.fn f)

/-- `Messaging.onTokenRefresh(nextOrObserver)`: same resolution and
registration as `onMessage`, on the public `onTokenRefresh` channel. -/
def onTokenRefresh (st : Emitter) (nextOrObserver : JSValue) :
    Except String (Emitter × JSValue) :=
  if isFunction nextOrObserver then
    Except.ok (addListener st onTokenRefreshEvent (Listener.fn nextOrObserver), nextOrObserver)
  else if isObject nextOrObserver && isFunction (jsNext nextOrObserver) then
    Except.ok (addListener st onTokenRefreshEvent (Listener.fn (jsNext nextOrObserver)),
      jsNext nextOrObserver)
  else
    Except.error onTokenRefreshError

/-- The disposer returned by `onTokenRefresh` for registered listener `f`. -/
def onTokenRefreshDisposer (st : Emitter) (f : JSValue) : Emitter :=
  removeListener st onTokenRefreshEvent (Listener.fn f)

/-- First fragment of the unsupported-method message. -/
def unsupportedPart1 : String := "Method "

/-- Second fragment of the unsupported-method message. -/
def unsupportedPart2 : String := "."

/-- Third fragment of the unsupported-method message. -/
def unsupportedPart3 : String := "() is unsupported by the native Firebase SDKs."

/-- Modelled from the spec:
`INTERNALS.STRINGS.ERROR_UNSUPPORTED_MODULE_METHOD(module, method)`
(`utils/internals.js`, not among the given sources) — an error message
"naming the calling module and method". -/
def ERROR_UNSUPPORTED_MODULE_METHOD (moduleName methodName : String) : String :=
  unsupportedPart1 ++ moduleName ++ unsupportedPart2 ++ methodName ++ unsupportedPart3

/-- The method name string "setBackgroundMessageHandler". -/
def setBackgroundMessageHandlerName : String := "setBackgroundMessageHandler"

/-- The method name string "useServiceWorker". -/
def useServiceWorkerName : String := "useServiceWorker"

/-- `Messaging.setBackgroundMessageHandler()`: declared with no
parameters (JavaScript ignores any arguments passed, hence the ignored
`args`), it unconditionally throws
`ERROR_UNSUPPORTED_MODULE_METHOD('messaging', 'setBackgroundMessageHandler')`. -/
def setBackgroundMessageHandler (_args : List JSValue) : Except String Unit :=
  Except.error (ERROR_UNSUPPORTED_MODULE_METHOD NAMESPACE setBackgroundMessageHandlerName)

/-- `Messaging.useServiceWorker()`: declared with no parameters
(JavaScript ignores any arguments passed), it unconditionally throws
`ERROR_UNSUPPORTED_MODULE_METHOD('messaging', 'useServiceWorker')`. -/
def useServiceWorker (_args : List JSValue) : Except String Unit :=
  Except.error (ERROR_UNSUPPORTED_MODULE_METHOD NAMESPACE useServiceWorkerName)

/-- Sample application name used in concrete witnesses. -/
def demoAppName : String := "demo-app"

/-- Sample messaging sender id used in concrete witnesses. -/
def demoSenderId : String := "1234567890"

/-- Sample application object used in concrete witnesses. -/
def demoApp : App :=
  { name := demoAppName, options := { messagingSenderId := demoSenderId } }

/-- The empty string, the falsy string value of the JS runtime. -/
def emptyStr : String := ""

/-- Sample serialisation behaviour: `build()` succeeds, returning the
wrapped payload as the native map. -/
def buildOk : JSValue → Except String JSValue :=
  fun payload => Except.ok payload

/-- Sample error message for a failing `build()`. -/
def buildFailMsg : String := "serialization failed"

/-- Sample serialisation behaviour: `build()` throws synchronously. -/
def buildFail : JSValue → Except String JSValue :=
  fun _ => Except.error buildFailMsg

/-- Sample native `sendMessage` behaviour: returns a promise (promises
numbered by `Nat`). -/
def nativeSendOk : JSValue → Except String Nat :=
  fun _ => Except.ok 0

/-- Sample error message for a native `sendMessage` that throws
synchronously. -/
def nativeFailMsg : String := "native sendMessage threw"

/-- Sample native `sendMessage` behaviour: throws synchronously. -/
def nativeSendFail : JSValue → Except String Nat :=
  fun _ => Except.error nativeFailMsg

/-- Both token options absent, as in `getToken()`. -/
def optsUndefBoth : TokenOptions :=
  { appName := JSValue.undefined, senderId := JSValue.undefined }

/-- Both token options supplied as the empty string. -/
def optsEmptyBoth : TokenOptions :=
  { appName := JSValue.string emptyStr, senderId := JSValue.string emptyStr }

/-- A token option set with a non-string, non-undefined `appName`. -/
def optsBadAppName : TokenOptions :=
  { appName := JSValue.number 7, senderId := JSValue.undefined }

/-- The native token call `getToken`/`deleteToken` makes for `demoApp`
with both options defaulted. -/
def tokenCallW : NativeTokenCall :=
  { appName := JSValue.string demoAppName, senderId := JSValue.string demoSenderId }

/-- The empty emitter state. -/
def emptyEmitter : Emitter := Emitter.mk []

/-- Sample user callback function used in concrete witnesses. -/
def fnA : JSValue := JSValue.function 1

/-- A second sample user callback function. -/
def fnB : JSValue := JSValue.function 2

/-- Sample native message payload (a plain object map). -/
def payloadW : JSValue := JSValue.object JSValue.undefined

/-- Witness emitter: constructor wiring plus two user listeners on the
public `onMessage` channel. -/
def emitterW : Emitter :=
  addListener (addListener (constructorInit emptyEmitter) onMessageEvent (Listener.fn fnA))
    onMessageEvent (Listener.fn fnB)

/-- Witness emitter with just the two user listeners on `onMessage`. -/
def emitterW2 : Emitter :=
  addListener (addListener emptyEmitter onMessageEvent (Listener.fn fnA))
    onMessageEvent (Listener.fn fnB)


/-- C1: for every value that is not a `RemoteMessage` instance,
`sendMessage` returns normally (never throws synchronously) with a
rejected promise whose message names the received `typeof`, and performs
no native delegation (empty call log). -/
theorem sendMessage_nonRemote_rejects {π : Type}
    (build : JSValue → Except String JSValue)
    (nativeSend : JSValue → Except String π) (v : JSValue)
    (h : isRemoteMessage v = false) :
    sendMessage build nativeSend v
      = (Except.ok (SendResult.rejected (sendMessageTypeError v)), ([] : List JSValue))
    ∧ ∃ p, sendMessageTypeError v = p ++ jsTypeof v := by
  refine ⟨?_, ⟨_, rfl⟩⟩
  cases v <;> first
    | rfl
    | simp [isRemoteMessage] at h

/-- Witness for C1 at the concrete non-`RemoteMessage` input `3`. -/
theorem sendMessage_nonRemote_rejects_witness :
    isRemoteMessage (JSValue.number 3) = false
    ∧ (sendMessage buildOk nativeSendOk (JSValue.number 3)
        = (Except.ok (SendResult.rejected (sendMessageTypeError (JSValue.number 3))),
            ([] : List JSValue))
      ∧ ∃ p, sendMessageTypeError (JSValue.number 3) = p ++ jsTypeof (JSValue.number 3)) :=
  ⟨by decide, sendMessage_nonRemote_rejects buildOk nativeSendOk (JSValue.number 3) (by decide)⟩

/-- C2: whenever `appName` or `senderId` is neither undefined nor a
string, `getToken` and `deleteToken` throw synchronously
(`Except.error`), so no native call record is ever produced. -/
theorem getToken_deleteToken_invalid_arg (app : App) (opts : TokenOptions)
    (h : ((!isUndefined opts.appName && !isString opts.appName)
        || (!isUndefined opts.senderId && !isString opts.senderId)) = true) :
    (∃ e, getToken app opts = Except.error e)
    ∧ ∃ e, deleteToken app opts = Except.error e := by
  by_cases h1 : (!isUndefined opts.appName && !isString opts.appName) = true
  · exact ⟨⟨getTokenAppNameError, by simp [getToken, h1]⟩,
      ⟨deleteTokenAppNameError, by simp [deleteToken, h1]⟩⟩
  · have h2 : (!isUndefined opts.senderId && !isString opts.senderId) = true := by
      rcases Bool.or_eq_true_iff.mp h with hl | hr
      · exact absurd hl h1
      · exact hr
    exact ⟨⟨getTokenSenderIdError, by simp [getToken, h1, h2]⟩,
      ⟨deleteTokenSenderIdError, by simp [deleteToken, h1, h2]⟩⟩

/-- Witness for C2 at the concrete invalid input `{ appName: 7 }`. -/
theorem getToken_deleteToken_invalid_arg_witness :
    ((!isUndefined optsBadAppName.appName && !isString optsBadAppName.appName)
        || (!isUndefined optsBadAppName.senderId && !isString optsBadAppName.senderId)) = true
    ∧ ((∃ e, getToken demoApp optsBadAppName = Except.error e)
      ∧ ∃ e, deleteToken demoApp optsBadAppName = Except.error e) :=
  ⟨by decide, getToken_deleteToken_invalid_arg demoApp optsBadAppName (by decide)⟩

/-- C6: `setBackgroundMessageHandler` and `useServiceWorker` throw
synchronously for all argument lists, with a message naming the module
namespace `messaging` and the method being called. -/
theorem unsupported_methods_raise (args1 args2 : List JSValue) :
    (∃ e, setBackgroundMessageHandler args1 = Except.error e
      ∧ (∃ p q, e = p ++ NAMESPACE ++ q)
      ∧ ∃ p q, e = p ++ setBackgroundMessageHandlerName ++ q)
    ∧ ∃ e, useServiceWorker args2 = Except.error e
      ∧ (∃ p q, e = p ++ NAMESPACE ++ q)
      ∧ ∃ p q, e = p ++ useServiceWorkerName ++ q := by
  refine ⟨⟨_, rfl, ⟨unsupportedPart1, unsupportedPart2 ++ setBackgroundMessageHandlerName ++ unsupportedPart3, by decide⟩, ⟨unsupportedPart1 ++ NAMESPACE ++ unsupportedPart2, unsupportedPart3, by decide⟩⟩,
    ⟨_, rfl, ⟨unsupportedPart1, unsupportedPart2 ++ useServiceWorkerName ++ unsupportedPart3, by decide⟩, ⟨unsupportedPart1 ++ NAMESPACE ++ unsupportedPart2, unsupportedPart3, by decide⟩⟩⟩

/-- C7: on a `RemoteMessage` instance, `sendMessage` never throws
synchronously; a synchronous throw from serialisation (`build`) or from
the native delegation is converted into a rejected promise carrying the
same error. -/
theorem sendMessage_remote_never_throws {π : Type}
    (build : JSValue → Except String JSValue)
    (nativeSend : JSValue → Except String π) (payload : JSValue) :
    (∃ r, (sendMessage build nativeSend (JSValue.remoteMessage payload)).1 = Except.ok r)
    ∧ (∀ e, build payload = Except.error e →
        sendMessage build nativeSend (JSValue.remoteMessage payload)
          = (Except.ok (SendResult.rejected e), ([] : List JSValue)))
    ∧ ∀ b e, build payload = Except.ok b → nativeSend b = Except.error e →
        sendMessage build nativeSend (JSValue.remoteMessage payload)
          = (Except.ok (SendResult.rejected e), [b]) := by
  refine ⟨?_, ?_, ?_⟩
  · rcases hb : build payload with e | b
    · exact ⟨SendResult.rejected e, by simp [sendMessage, hb]⟩
    · rcases hn : nativeSend b with e | p
      · exact ⟨SendResult.rejected e, by simp [sendMessage, hb, hn]⟩
      · exact ⟨SendResult.native p, by simp [sendMessage, hb, hn]⟩
  · intro e he
    simp [sendMessage, he]
  · intro b e hb hn
    simp [sendMessage, hb, hn]

/-- Witness for C7: a concretely failing `build` is converted into a
rejected promise with the same error and no native call. -/
theorem sendMessage_remote_never_throws_witness :
    buildFail JSValue.null = Except.error buildFailMsg
    ∧ sendMessage buildFail nativeSendOk (JSValue.remoteMessage JSValue.null)
        = (Except.ok (SendResult.rejected buildFailMsg), ([] : List JSValue)) :=
  ⟨rfl, (sendMessage_remote_never_throws buildFail nativeSendOk JSValue.null).2.1
    buildFailMsg rfl⟩

/-- C10: `subscribeToTopic` and `unsubscribeFromTopic` validate nothing:
for every value of any type they return normally, forwarding the argument
unchanged to the corresponding native call whose asynchronous result is
returned unchanged. -/
theorem topic_methods_delegate_unvalidated (topic : JSValue) :
    subscribeToTopic topic
      = Except.ok { method := subscribeToTopicName, topic := topic }
    ∧ unsubscribeFromTopic topic
      = Except.ok { method := unsubscribeFromTopicName, topic := topic } :=
  ⟨rfl, rfl⟩

/-- C8: when `appName` or `senderId` is absent (undefined), the native
`getToken`/`deleteToken` call receives the owning application's name,
resp. its configured `messagingSenderId`, in its place; the native call's
asynchronous result is the value returned (unchanged). -/
theorem getToken_deleteToken_undefined_defaults (app : App) (opts : TokenOptions)
    (c : NativeTokenCall) :
    (opts.appName = JSValue.undefined → getToken app opts = Except.ok c →
        c.appName = JSValue.string app.name)
    ∧ (opts.senderId = JSValue.undefined → getToken app opts = Except.ok c →
        c.senderId = JSValue.string app.options.messagingSenderId)
    ∧ (opts.appName = JSValue.undefined → deleteToken app opts = Except.ok c →
        c.appName = JSValue.string app.name)
    ∧ (opts.senderId = JSValue.undefined → deleteToken app opts = Except.ok c →
        c.senderId = JSValue.string app.options.messagingSenderId)
    ∧ getToken app optsUndefBoth
        = Except.ok { appName := JSValue.string app.name,
                      senderId := JSValue.string app.options.messagingSenderId }
    ∧ deleteToken app optsUndefBoth
        = Except.ok { appName := JSValue.string app.name,
                      senderId := JSValue.string app.options.messagingSenderId } := by
  refine ⟨?_, ?_, ?_, ?_, rfl, rfl⟩ <;>
    · intro h hok
      simp only [getToken, deleteToken, h] at hok
      split at hok
      · simp at hok
      · split at hok
        · simp at hok
        · injection hok with hok
          subst hok
          rfl

/-- Witness for C8 at a concrete application and both options absent. -/
theorem getToken_deleteToken_undefined_defaults_witness :
    optsUndefBoth.appName = JSValue.undefined
    ∧ tokenCallW.appName = JSValue.string demoApp.name :=
  ⟨rfl, (getToken_deleteToken_undefined_defaults demoApp optsUndefBoth tokenCallW).1
    rfl rfl⟩

/-- C9: the empty string passes the string validation of
`getToken`/`deleteToken`, but being falsy it is replaced by the default
(`app.name` / `app.options.messagingSenderId`) by the `||` fallback; so
when the defaults are themselves non-empty, the native call never
receives the caller's empty string. -/
theorem getToken_deleteToken_empty_string_defaults (app : App) :
    getToken app optsEmptyBoth
      = Except.ok { appName := JSValue.string app.name,
                    senderId := JSValue.string app.options.messagingSenderId }
    ∧ deleteToken app optsEmptyBoth
      = Except.ok { appName := JSValue.string app.name,
                    senderId := JSValue.string app.options.messagingSenderId }
    ∧ (app.name ≠ emptyStr → app.options.messagingSenderId ≠ emptyStr →
        ∀ c, getToken app optsEmptyBoth = Except.ok c →
          c.appName ≠ JSValue.string emptyStr ∧ c.senderId ≠ JSValue.string emptyStr) := by
  refine ⟨rfl, rfl, ?_⟩
  intro h1 h2 c hc
  have hr : getToken app optsEmptyBoth
      = Except.ok ⟨JSValue.string app.name,
          JSValue.string app.options.messagingSenderId⟩ := rfl
  rw [hr] at hc
  injection hc with hc
  subst hc
  constructor
  · intro hcon
    injection hcon with hcon
    exact h1 hcon
  · intro hcon
    injection hcon with hcon
    exact h2 hcon

/-- Witness for C9 at a concrete application with non-empty defaults. -/
theorem getToken_deleteToken_empty_string_defaults_witness :
    demoApp.name ≠ emptyStr
    ∧ (JSValue.string demoAppName ≠ JSValue.string emptyStr
      ∧ JSValue.string demoSenderId ≠ JSValue.string emptyStr) :=
  ⟨by decide, (getToken_deleteToken_empty_string_defaults demoApp).2.2
    (by decide) (by decide)
    { appName := JSValue.string demoAppName, senderId := JSValue.string demoSenderId }
    rfl⟩

/-- C3: `onMessage` and `onTokenRefresh` succeed exactly when the
argument is a function or an object whose `next` member is a function;
a function argument registers the function itself, an observer registers
its `next` member, and any other argument throws synchronously without
registering anything (no new emitter state is produced). -/
theorem onMessage_onTokenRefresh_validation (st : Emitter) (v : JSValue) :
    ((∃ r, onMessage st v = Except.ok r)
        ↔ (isFunction v || (isObject v && isFunction (jsNext v))) = true)
    ∧ ((∃ r, onTokenRefresh st v = Except.ok r)
        ↔ (isFunction v || (isObject v && isFunction (jsNext v))) = true)
    ∧ (isFunction v = true →
        onMessage st v = Except.ok (addListener st onMessageEvent (Listener.fn v), v)
        ∧ onTokenRefresh st v
          = Except.ok (addListener st onTokenRefreshEvent (Listener.fn v), v))
    ∧ (isFunction v = false → (isObject v && isFunction (jsNext v)) = true →
        onMessage st v
          = Except.ok (addListener st onMessageEvent (Listener.fn (jsNext v)), jsNext v)
        ∧ onTokenRefresh st v
          = Except.ok (addListener st onTokenRefreshEvent (Listener.fn (jsNext v)), jsNext v))
    ∧ (isFunction v = false → (isObject v && isFunction (jsNext v)) = false →
        onMessage st v = Except.error onMessageError
        ∧ onTokenRefresh st v = Except.error onTokenRefreshError) := by
  by_cases hf : isFunction v = true
  · simp [onMessage, onTokenRefresh, hf]
  · have hf2 : isFunction v = false := by simpa using hf
    by_cases ho : (isObject v && isFunction (jsNext v)) = true
    · simp [onMessage, onTokenRefresh, hf2, ho]
    · have ho2 : (isObject v && isFunction (jsNext v)) = false := by simpa using ho
      simp [onMessage, onTokenRefresh, hf2, ho2]

/-- Witness for C3: a plain function argument is registered itself on
both channels. -/
theorem onMessage_onTokenRefresh_validation_witness :
    isFunction fnA = true
    ∧ (onMessage emptyEmitter fnA
        = Except.ok (addListener emptyEmitter onMessageEvent (Listener.fn fnA), fnA)
      ∧ onTokenRefresh emptyEmitter fnA
        = Except.ok (addListener emptyEmitter onTokenRefreshEvent (Listener.fn fnA), fnA)) :=
  ⟨by decide, (onMessage_onTokenRefresh_validation emptyEmitter fnA).2.2.1 (by decide)⟩

/-- C4: when the constructor's fan-out closure is the registration on the
internal `messaging_message_received` channel, an inbound native event
with payload `p` re-emits on the public `onMessage` channel a
`RemoteMessage` wrapping `p`, and every listener registered there at that
time is invoked with that same wrapped value. -/
theorem nativeMessage_fanout (st : Emitter) (p : JSValue)
    (h : listenersFor st messagingMessageReceivedEvent = [Listener.fanoutMessage]) :
    dispatchNativeEvent st messagingMessageReceivedEvent p
      = (listenersFor st onMessageEvent).map
          (fun cb => (cb, JSValue.remoteMessage p)) := by
  unfold dispatchNativeEvent emit
  rw [h]
  simp [invoke, emit]

/-- Witness for C4: the constructor wiring plus two user listeners; both
listeners receive the wrapped payload. -/
theorem nativeMessage_fanout_witness :
    listenersFor emitterW messagingMessageReceivedEvent = [Listener.fanoutMessage]
    ∧ dispatchNativeEvent emitterW messagingMessageReceivedEvent payloadW
        = (listenersFor emitterW onMessageEvent).map
            (fun cb => (cb, JSValue.remoteMessage payloadW))
    ∧ listenersFor emitterW onMessageEvent = [Listener.fn fnA, Listener.fn fnB] :=
  ⟨by decide, nativeMessage_fanout emitterW payloadW (by decide), by decide⟩

/-- Erasing a registration that occurs at most once equals filtering it
out of the registration list. -/
theorem count_le_one_erase_eq_filter (l : List (String × Listener)) (a : String × Listener)
    (h : l.count a ≤ 1) : l.erase a = l.filter (fun x => x != a) := by
  induction l with
  | nil => rfl
  | cons b t ih =>
    by_cases hba : b = a
    · subst hba
      rw [List.erase_cons_head]
      have h0 : t.count b = 0 := by
        rw [List.count_cons_self] at h
        omega
      have hmem : b ∉ t := List.count_eq_zero.mp h0
      rw [List.filter_cons]
      simp only [bne_self_eq_false, Bool.false_eq_true, if_false]
      exact (List.filter_eq_self.mpr fun x hx => by
        simp only [bne_iff_ne, ne_eq]
        exact fun hxb => hmem (hxb ▸ hx)).symm
    · rw [List.erase_cons_tail (by simpa using hba)]
      rw [List.filter_cons]
      have hb : (b != a) = true := by simpa using hba
      rw [if_pos hb]
      have hcnt : t.count a ≤ 1 := by
        rw [List.count_cons_of_ne (fun hab => hba hab.symm)] at h
        exact h
      rw [ih hcnt]

/-- Pulling a filter on the callback through the pairing map of `emit`. -/
theorem filter_pair_comm (l : List (String × Listener)) (ch : String) (cb : Listener)
    (v : JSValue) :
    List.map ((fun c => ((c : Listener), v)) ∘ Prod.snd)
        (l.filter (fun a => a.1 == ch && a != (ch, cb)))
      = List.filter (fun q => q.1 != cb)
          (List.map ((fun c => ((c : Listener), v)) ∘ Prod.snd)
            (l.filter (fun p => p.1 == ch))) := by
  induction l with
  | nil => rfl
  | cons a t ih =>
    obtain ⟨c, d⟩ := a
    by_cases hc : c = ch
    · subst hc
      by_cases hd : d = cb
      · subst hd
        simp [List.filter_cons, ih]
      · simp [List.filter_cons, hd, ih]
    · simp [List.filter_cons, hc, ih]

/-- Removing a listener registered at most once under a channel filters
exactly its invocations out of that channel's emission. -/
theorem emit_removeListener (st : Emitter) (ch : String) (cb : Listener) (v : JSValue)
    (h : st.listeners.count (ch, cb) ≤ 1) :
    emit (removeListener st ch cb) ch v
      = (emit st ch v).filter (fun q => q.1 != cb) := by
  simp only [emit, removeListener, listenersFor, List.map_map]
  rw [count_le_one_erase_eq_filter _ _ h]
  simp only [List.filter_filter]
  exact filter_pair_comm st.listeners ch cb v

/-- Erasing a registration of one channel does not change the
registration list of any other channel. -/
theorem erase_filter_other (l : List (String × Listener)) (ch ch2 : String) (cb : Listener)
    (h : ch2 ≠ ch) :
    (l.erase (ch, cb)).filter (fun p => p.1 == ch2)
      = l.filter (fun p => p.1 == ch2) := by
  induction l with
  | nil => rfl
  | cons a t ih =>
    by_cases ha : a = (ch, cb)
    · subst ha
      rw [List.erase_cons_head]
      rw [List.filter_cons]
      have hno : (((ch, cb).1 == ch2) = true) ↔ False := by
        simp only [beq_iff_eq]
        exact ⟨fun he => h he.symm, False.elim⟩
      simp [hno]
    · rw [List.erase_cons_tail (by simpa using ha)]
      rw [List.filter_cons, List.filter_cons]
      by_cases h1 : (a.1 == ch2) = true <;> simp [h1, ih]

/-- Removing a listener under one channel leaves emission on every other
channel unchanged. -/
theorem emit_removeListener_other (st : Emitter) (ch ch2 : String) (cb : Listener)
    (v : JSValue) (h : ch2 ≠ ch) :
    emit (removeListener st ch cb) ch2 v = emit st ch2 v := by
  simp only [emit, removeListener, listenersFor]
  rw [erase_filter_other st.listeners ch ch2 cb h]

/-- C5: calling the disposer returned by `onMessage` / `onTokenRefresh`
for a callback registered (once) on its channel removes exactly that
registration: a subsequent emission on the channel invokes no callback
for it, every other still-registered listener is still invoked (the
emission is exactly the old one with that callback's invocations filtered
out), and emissions on other channels are unchanged. -/
theorem disposer_removes_exactly (st : Emitter) (f : JSValue) (v : JSValue)
    (h1 : st.listeners.count (onMessageEvent, Listener.fn f) ≤ 1)
    (h2 : st.listeners.count (onTokenRefreshEvent, Listener.fn f) ≤ 1) :
    (emit (onMessageDisposer st f) onMessageEvent v
        = (emit st onMessageEvent v).filter (fun q => q.1 != Listener.fn f)
      ∧ (Listener.fn f, v) ∉ emit (onMessageDisposer st f) onMessageEvent v
      ∧ ∀ ch2, ch2 ≠ onMessageEvent →
          emit (onMessageDisposer st f) ch2 v = emit st ch2 v)
    ∧ (emit (onTokenRefreshDisposer st f) onTokenRefreshEvent v
        = (emit st onTokenRefreshEvent v).filter (fun q => q.1 != Listener.fn f)
      ∧ (Listener.fn f, v) ∉ emit (onTokenRefreshDisposer st f) onTokenRefreshEvent v
      ∧ ∀ ch2, ch2 ≠ onTokenRefreshEvent →
          emit (onTokenRefreshDisposer st f) ch2 v = emit st ch2 v) := by
  refine ⟨⟨emit_removeListener st onMessageEvent (Listener.fn f) v h1, ?_, ?_⟩,
    ⟨emit_removeListener st onTokenRefreshEvent (Listener.fn f) v h2, ?_, ?_⟩⟩
  · unfold onMessageDisposer
    rw [emit_removeListener st onMessageEvent (Listener.fn f) v h1]
    intro hmem
    have := (List.mem_filter.mp hmem).2
    simp at this
  · exact fun ch2 hch2 =>
      emit_removeListener_other st onMessageEvent ch2 (Listener.fn f) v hch2
  · unfold onTokenRefreshDisposer
    rw [emit_removeListener st onTokenRefreshEvent (Listener.fn f) v h2]
    intro hmem
    have := (List.mem_filter.mp hmem).2
    simp at this
  · exact fun ch2 hch2 =>
      emit_removeListener_other st onTokenRefreshEvent ch2 (Listener.fn f) v hch2

/-- Witness for C5: with two listeners registered on `onMessage`,
disposing the first leaves exactly the second to be invoked. -/
theorem disposer_removes_exactly_witness :
    emitterW2.listeners.count (onMessageEvent, Listener.fn fnA) ≤ 1
    ∧ emitterW2.listeners.count (onTokenRefreshEvent, Listener.fn fnA) ≤ 1
    ∧ emit (onMessageDisposer emitterW2 fnA) onMessageEvent payloadW
        = (emit emitterW2 onMessageEvent payloadW).filter (fun q => q.1 != Listener.fn fnA)
    ∧ emit (onMessageDisposer emitterW2 fnA) onMessageEvent payloadW
        = [(Listener.fn fnB, payloadW)] :=
  ⟨by decide, by decide,
    (disposer_removes_exactly emitterW2 fnA payloadW (by decide) (by decide)).1.1,
    by decide⟩
